import Mathlib

/-!
Verification of the MockMan VS Code extension (src/extension.js).
The definitions below are a shallow embedding of the pure logic of the extension:
the URI callback handler, the collection-catalog refresh state transition,
the tree data provider, the endpoint catalog built by the endpoints webview
script, the template-browser message handler, and the create-button
client-side validation. Strings, lists and options model JS strings,
arrays and nullable values; JS truthiness is made explicit. Every
definition is a pure function, so determinism of the embedded operations
is inherent to the model.
-/

namespace Mockman

/-- A field of a collection: the (fieldName, fieldType) pair consumed by the
tree provider. -/
structure Field where
  fieldName : String
  fieldType : String
deriving Repr, DecidableEq

/-- A collection as returned by the remote service: server id, human name and
its ordered fields. -/
structure Collection where
  _id : String
  collectionName : String
  fields : List Field
deriving Repr, DecidableEq

/-- JS truthiness of a nullable string: null/undefined and the empty string
are falsy. -/
def jsTruthy : Option String → Bool
  | none => false
  | some s => !s.isEmpty

/-- The character class of the regex [a-f0-9] in handleUri. -/
def isLowerHexChar (c : Char) : Bool :=
  ('a' ≤ c && c ≤ 'f') || ('0' ≤ c && c ≤ '9')

/-- The test of the anchored regex from handleUri: the whole
string is one or more lowercase-hex characters. -/
def testLowerHex (s : String) : Bool :=
  !s.data.isEmpty && s.data.all isLowerHexChar

/-- Whitespace characters removed by the JS String trim method (the ASCII
ones plus no-break space; further Unicode space characters behave alike and
are irrelevant to the keys at hand). -/
def isJsWhitespace (c : Char) : Bool :=
  c == ' ' || c == '\t' || c == '\n' || c == '\r' ||
    c == '\x0b' || c == '\x0c' || c == ' '

/-- The JS String trim method: drop leading and trailing whitespace. -/
def jsTrim (s : String) : String :=
  ⟨((s.data.dropWhile isJsWhitespace).reverse.dropWhile isJsWhitespace).reverse⟩

/-- URLSearchParams.get: the value of the first query pair with the given
name, or null. -/
def urlSearchParamsGet (query : List (String × String)) (name : String) :
    Option String :=
  (query.find? (fun p => p.1 == name)).map Prod.snd

/-- Outcome of the URI callback handler in activate: either the store/cache
branch is taken with the trimmed key (persist to secrets, update the
in-memory cache, write configuration, report success, refresh), or one of
the two error reports is shown and nothing else happens. -/
inductive UriOutcome where
  | stored (key : String)
  | invalidKeyError
  | invalidPathError
deriving Repr, DecidableEq

/-- handleUri from activate: accept only path "/callback" with a truthy
apikey query parameter of positive length matching the lowercase-hex
regex; then store the trimmed key; otherwise report an error. -/
def handleUri (path : String) (query : List (String × String)) : UriOutcome :=
  if path == "/callback" then
    let apiKey := urlSearchParamsGet query "apikey"
    match apiKey with
    | some k =>
        if !k.isEmpty && k.length > 0 && testLowerHex k then
          UriOutcome.stored (jsTrim k)
        else
          UriOutcome.invalidKeyError
    | none => UriOutcome.invalidKeyError
  else
    UriOutcome.invalidPathError

/-- Whether the store/cache branch of handleUri was taken. -/
def UriOutcome.isStored : UriOutcome → Bool
  | .stored _ => true
  | _ => false

/-! ## Collection catalog refresh (MockmanProvider.refresh) -/

/-- Result of the awaited axios GET inside refresh: success carries the
response body res.data, which may be falsy (null), modelled as none; failure
carries the error message interpolated into the report. -/
inductive FetchResult where
  | success (body : Option (List Collection))
  | failure (message : String)
deriving Repr, DecidableEq

/-- Observable outcome of one refresh run: the new snapshot
this.collections, the network requests issued, the error messages shown,
and how many times the tree-data change event was fired. -/
structure RefreshOutcome where
  collections : List Collection
  requests : List String
  errors : List String
  fired : Nat
deriving Repr, DecidableEq

/-- MockmanProvider.refresh as a state transition: from the prior snapshot,
the stored credential (nullable) and the result the network would give,
compute the new snapshot and the emitted effects. The prior snapshot is
never consulted on any path. -/
def refresh (_prior : List Collection) (apiKey : Option String)
    (response : FetchResult) : RefreshOutcome :=
  if !jsTruthy apiKey then
    { collections := [], requests := [], errors := [], fired := 1 }
  else
    let key := apiKey.getD ""
    let url := "https://api.mockman.online/collections/" ++ key
    match response with
    | .success body =>
        { collections := body.getD [], requests := [url], errors := [],
          fired := 1 }
    | .failure msg =>
        { collections := [], requests := [url],
          errors := ["Error fetching collections: " ++ msg], fired := 1 }

/-! ## Tree presentation (MockmanProvider.getChildren) -/

/-- The two collapsible states the provider uses. -/
inductive CollapsibleState where
  | collapsed
  | notCollapsible
deriving Repr, DecidableEq

/-- The navigation command attached to a root-level tree item. -/
structure TreeCommand where
  command : String
  title : String
  arguments : List Collection
deriving Repr, DecidableEq

/-- A MockmanTreeItem as built by getChildren: label, collapsible state,
optional command, icon id and optional collection payload. -/
structure MockmanTreeItem where
  label : String
  collapsibleState : CollapsibleState
  command : Option TreeCommand
  iconPath : String
  collectionData : Option Collection
deriving Repr, DecidableEq

/-- MockmanProvider.getChildren: at root, one collapsed item per collection
carrying the show-endpoints command with that collection as argument; under
a node, look the collection up by exact name (Array.prototype.find: first
match), and map its fields to non-collapsible "name (type)" items; no match
gives the empty list. -/
def getChildren (collections : List Collection)
    (element : Option MockmanTreeItem) : List MockmanTreeItem :=
  match element with
  | none =>
      collections.map fun c =>
        { label := c.collectionName
          collapsibleState := .collapsed
          command := some { command := "mockman.showEndpoints",
                            title := "Show Endpoints", arguments := [c] }
          iconPath := "file-submodule"
          collectionData := some c }
  | some el =>
      match collections.find? (fun col => col.collectionName == el.label) with
      | none => []
      | some collection =>
          collection.fields.map fun f =>
            { label := f.fieldName ++ " (" ++ f.fieldType ++ ")"
              collapsibleState := .notCollapsible
              command := none
              iconPath := "symbol-field"
              collectionData := none }

/-! ## Endpoint catalog (EndpointsWebview script, endpoints message) -/

/-- One endpoint entry as created by createEndpoint in the webview script:
HTTP method, path, human description, and the full URL put on the
clipboard. -/
structure EndpointDescriptor where
  method : String
  path : String
  description : String
  fullUrl : String
deriving Repr, DecidableEq

/-- The base host hard-coded in the webview. -/
def mockmanBaseUrl : String := "https://api.mockman.online"

/-- The Collection Level group of the endpoints message handler: the three
descriptors, in script order, built by string interpolation. -/
def collectionEndpoints (baseUrl apiKey : String) (c : Collection) :
    List EndpointDescriptor :=
  [ { method := "GET"
      path := "/collections/" ++ apiKey
      description := "Get all collections"
      fullUrl := baseUrl ++ "/collections/" ++ apiKey },
    { method := "GET"
      path := "/collections/" ++ apiKey ++ "/by-name/" ++ c.collectionName
      description := "Get collection by name"
      fullUrl := baseUrl ++ "/collections/" ++ apiKey ++ "/by-name/" ++
        c.collectionName },
    { method := "GET"
      path := "/collections/" ++ apiKey ++ "/" ++ c._id
      description := "Get collection by ID"
      fullUrl := baseUrl ++ "/collections/" ++ apiKey ++ "/" ++ c._id } ]

/-- The Document Level group of the endpoints message handler: the six
descriptors, in script order, built by string interpolation; single-document
operations keep the literal ":documentId" placeholder. -/
def documentEndpoints (baseUrl apiKey : String) (c : Collection) :
    List EndpointDescriptor :=
  let docs := "/collections/" ++ apiKey ++ "/" ++ c._id ++ "/documents"
  let oneDoc := docs ++ "/:documentId"
  [ { method := "POST", path := docs, description := "Add documents"
      fullUrl := baseUrl ++ docs },
    { method := "GET", path := docs, description := "Get all documents"
      fullUrl := baseUrl ++ docs },
    { method := "GET", path := oneDoc, description := "Get document by ID"
      fullUrl := baseUrl ++ oneDoc },
    { method := "PUT", path := oneDoc, description := "Update document by ID"
      fullUrl := baseUrl ++ oneDoc },
    { method := "DELETE", path := oneDoc
      description := "Delete document by ID"
      fullUrl := baseUrl ++ oneDoc },
    { method := "DELETE", path := docs, description := "Delete all documents"
      fullUrl := baseUrl ++ docs } ]

/-- The full ordered catalog the webview renders for one endpoints message:
collection level then document level. -/
def endpointCatalog (baseUrl apiKey : String) (c : Collection) :
    List EndpointDescriptor :=
  collectionEndpoints baseUrl apiKey c ++ documentEndpoints baseUrl apiKey c

/-! ## Endpoints panel content update (EndpointsWebview.updateContent) -/

/-- The endpoints message posted to the webview: the collection and the api
key embedded in every rendered URL. -/
structure EndpointsMessage where
  collection : Collection
  apiKey : String
deriving Repr, DecidableEq

/-- EndpointsWebview.updateContent: post the endpoints message only when the
resolved credential is truthy and the panel exists; otherwise post
nothing. -/
def updateContent (apiKey : Option String) (panelOpen : Bool)
    (c : Collection) : Option EndpointsMessage :=
  if !jsTruthy apiKey || !panelOpen then
    none
  else
    some { collection := c, apiKey := apiKey.getD "" }

/-! ## Template browser message handler (TemplateBrowserWebview) -/

/-- The three network-backed messages of the template browser. -/
inductive TemplateMessage where
  | getTemplates
  | getPreview (category : String)
  | createCollection (category : String) (count : Int)
deriving Repr, DecidableEq

/-- The action word interpolated into the error report for each message. -/
def templateActionName : TemplateMessage → String
  | .getTemplates => "fetching templates"
  | .getPreview _ => "fetching preview"
  | .createCollection _ _ => "creating collection"

/-- The URL requested for each message once a credential is present. -/
def templateRequestUrl (apiKey : String) : TemplateMessage → String
  | .getTemplates => "https://api.mockman.online/templates/" ++ apiKey
  | .getPreview category =>
      "https://api.mockman.online/templates/" ++ apiKey ++ "/" ++ category ++
        "/preview"
  | .createCollection _ _ =>
      "https://api.mockman.online/templates/" ++ apiKey ++ "/create"

/-- A failed axios request: the optional server-supplied
error.response.data.message chain (none when any link is missing) and the
transport error.message. -/
structure RequestError where
  responseMessage : Option String
  message : String
deriving Repr, DecidableEq

/-- Result the network would give the handler for its single request. -/
inductive RequestResult where
  | ok
  | err (e : RequestError)
deriving Repr, DecidableEq

/-- The message selection of handleError:
error.response?.data?.message || error.message, with JS falsiness of an
empty server message. -/
def extractErrorMessage (e : RequestError) : String :=
  match e.responseMessage with
  | some m => if m.isEmpty then e.message else m
  | none => e.message

/-- Observable outcome of one template-browser message: the requests issued,
the error notifications shown to the user. -/
structure TemplateOutcome where
  requests : List String
  shownErrors : List String
deriving Repr, DecidableEq

/-- The message handler of TemplateBrowserWebview.show for the three
network-backed messages: a falsy credential short-circuits into
showLoginError with no request; otherwise one request is issued and a
failure is reported once through handleError. -/
def handleTemplateMessage (apiKey : Option String) (msg : TemplateMessage)
    (result : RequestResult) : TemplateOutcome :=
  if !jsTruthy apiKey then
    { requests := [],
      shownErrors := ["⚠️ Please login first (MockMan: Login)."] }
  else
    let url := templateRequestUrl (apiKey.getD "") msg
    match result with
    | .ok => { requests := [url], shownErrors := [] }
    | .err e =>
        { requests := [url],
          shownErrors := ["Error " ++ templateActionName msg ++ ": " ++
            extractErrorMessage e] }

/-! ## Create-button client-side validation (template browser script) -/

/-- What the createBtn click handler posts to the extension host: either the
createCollection message (which alone triggers the POST) or a showError
message with the range-validation text. -/
inductive CreateClickOutcome where
  | postCreate (category : String) (count : Int)
  | showRangeError (message : String)
deriving Repr, DecidableEq

/-- The createBtn click handler, parameterised by the maximum
count (500 in the first variant, 1000 in the second): category is the
select value ("" when none chosen), count is parseInt of the number input
(none for NaN, on which every comparison is false). -/
def createClick (maxCount : Int) (category : String) (count : Option Int) :
    CreateClickOutcome :=
  let inRange :=
    match count with
    | some n => 1 ≤ n && n ≤ maxCount
    | none => false
  if !category.isEmpty && inRange then
    CreateClickOutcome.postCreate category (count.getD 0)
  else
    CreateClickOutcome.showRangeError
      ("Please select a template and enter a valid row count (1-" ++
        toString maxCount ++ ").")

/-- The click handler of the first variant (bound 500). -/
def createClick500 : String → Option Int → CreateClickOutcome :=
  createClick 500

/-- The click handler of the second variant (bound 1000). -/
def createClick1000 : String → Option Int → CreateClickOutcome :=
  createClick 1000

/-! ## Helper lemmas -/

lemma whitespace_not_lowerHex (c : Char) (h : isJsWhitespace c = true) :
    isLowerHexChar c = false := by
  simp only [isJsWhitespace, Bool.or_eq_true, beq_iff_eq] at h
  rcases h with ((((((rfl | rfl) | rfl) | rfl) | rfl) | rfl) | rfl) <;> decide

lemma lowerHex_not_whitespace (c : Char) (h : isLowerHexChar c = true) :
    isJsWhitespace c = false := by
  cases hw : isJsWhitespace c with
  | false => rfl
  | true =>
      rw [whitespace_not_lowerHex c hw] at h
      exact absurd h (by simp)

lemma dropWhile_eq_self_of_all_false {p : Char → Bool} {l : List Char}
    (h : ∀ c ∈ l, p c = false) : l.dropWhile p = l := by
  cases l with
  | nil => rfl
  | cons c cs => simp [List.dropWhile_cons, h c (List.mem_cons_self c cs)]

lemma find?_first_match {α : Type} {p : α → Bool} (pre : List α) (c : α)
    (post : List α) (hpre : ∀ x ∈ pre, p x = false) (hc : p c = true) :
    (pre ++ c :: post).find? p = some c := by
  induction pre with
  | nil => simpa using List.find?_cons_of_pos post hc
  | cons a as ih =>
      rw [List.cons_append,
        List.find?_cons_of_neg _ (by simp [hpre a (List.mem_cons_self a as)])]
      exact ih fun x hx => hpre x (List.mem_cons_of_mem a hx)

lemma jsTrim_eq_self_of_lowerHex (a : String)
    (h : a.data.all isLowerHexChar = true) : jsTrim a = a := by
  have hall : ∀ c ∈ a.data, isJsWhitespace c = false := by
    intro c hc
    exact lowerHex_not_whitespace c (List.all_eq_true.mp h c hc)
  unfold jsTrim
  rw [dropWhile_eq_self_of_all_false hall,
    dropWhile_eq_self_of_all_false
      (fun c hc => hall c (List.mem_reverse.mp hc)),
    List.reverse_reverse]

lemma testLowerHex_nonempty (a : String) (h : testLowerHex a = true) :
    a ≠ "" := by
  intro ha
  rw [ha] at h
  exact absurd h (by decide)

/-- The guard of handleUri collapses to the regex test: the truthiness and
positive-length checks are subsumed by the one-or-more-characters
pattern. -/
lemma handleUri_guard_eq (k : String) :
    (!k.isEmpty && k.length > 0 && testLowerHex k) = testLowerHex k := by
  cases hx : testLowerHex k with
  | false => simp [hx]
  | true =>
      have hne : k ≠ "" := testLowerHex_nonempty k hx
      have hemp : k.isEmpty = false := by
        cases he : k.isEmpty with
        | false => rfl
        | true => exact absurd ((String.isEmpty_iff k).mp he) hne
      have hd : k.data ≠ [] := by
        intro hnil
        exact hne (String.ext_iff.mpr (by rw [hnil]))
      have hlen : k.length > 0 := by
        have hp := List.length_pos.mpr hd
        exact hp
      simp [hx, hemp, hlen]

lemma handleUri_not_callback (path : String) (query : List (String × String))
    (hp : path ≠ "/callback") : handleUri path query = .invalidPathError := by
  unfold handleUri
  rw [if_neg (by simp [hp])]

lemma handleUri_param_none (query : List (String × String))
    (hq : urlSearchParamsGet query "apikey" = none) :
    handleUri "/callback" query = .invalidKeyError := by
  simp only [handleUri, hq, beq_self_eq_true, if_true]

lemma handleUri_param_some (query : List (String × String)) (a : String)
    (hq : urlSearchParamsGet query "apikey" = some a) :
    handleUri "/callback" query =
      if testLowerHex a then UriOutcome.stored (jsTrim a)
      else UriOutcome.invalidKeyError := by
  simp only [handleUri, hq, beq_self_eq_true, if_true, handleUri_guard_eq]

/-! ## Claim theorems -/

/-- C1: the store/cache branch of the URI handler is taken exactly for URIs
with path "/callback" whose apikey query parameter is present, non-empty
and matches the lowercase-hex pattern; every other URI produces only the
invalid-path or invalid-key error report (so no state is changed), as the
concrete rejections of "ABC123", "" and "12g4" illustrate. -/
theorem handleUri_store_iff (path : String) (query : List (String × String)) :
    (∀ k, handleUri path query = .stored k →
      path = "/callback" ∧
        ∃ a, urlSearchParamsGet query "apikey" = some a ∧ a ≠ "" ∧
          testLowerHex a = true ∧ k = jsTrim a) ∧
    (path ≠ "/callback" → handleUri path query = .invalidPathError) ∧
    (path = "/callback" →
      (∀ a, urlSearchParamsGet query "apikey" = some a →
        testLowerHex a = false) →
      handleUri path query = .invalidKeyError) ∧
    handleUri "/callback" [("apikey", "ABC123")] = .invalidKeyError ∧
    handleUri "/callback" [("apikey", "")] = .invalidKeyError ∧
    handleUri "/callback" [("apikey", "12g4")] = .invalidKeyError := by
  refine ⟨?_, handleUri_not_callback path query, ?_, by decide, by decide,
    by decide⟩
  · intro k h
    by_cases hp : path = "/callback"
    · subst hp
      refine ⟨rfl, ?_⟩
      cases hq : urlSearchParamsGet query "apikey" with
      | none =>
          rw [handleUri_param_none query hq] at h
          exact absurd h (by simp)
      | some a =>
          rw [handleUri_param_some query a hq] at h
          by_cases hx : testLowerHex a = true
          · rw [if_pos hx] at h
            exact ⟨a, rfl, testLowerHex_nonempty a hx, hx,
              ((UriOutcome.stored.injEq _ _).mp h).symm⟩
          · rw [if_neg hx] at h
            exact absurd h (by simp)
    · rw [handleUri_not_callback path query hp] at h
      exact absurd h (by simp)
  · intro hp hall
    subst hp
    cases hq : urlSearchParamsGet query "apikey" with
    | none => exact handleUri_param_none query hq
    | some a =>
        rw [handleUri_param_some query a hq, hall a hq, if_neg (by simp)]

/-- C1 witness: a concrete valid callback URI takes the store branch and a
concrete invalid one is rejected. -/
theorem handleUri_store_iff_witness :
    handleUri "/wrong" [("apikey", "abc123")] = .invalidPathError ∧
    handleUri "/callback" [("apikey", "ABC123")] = .invalidKeyError := by
  have h := handleUri_store_iff "/wrong" [("apikey", "abc123")]
  exact ⟨h.2.1 (by decide), h.2.2.2.1⟩

/-- C9: a key accepted by the URI handler matches the lowercase-hex
pattern, on which the JS trim is the identity, so the key persisted to
secret storage, written to configuration and cached in memory is the
apikey query parameter verbatim. -/
theorem handleUri_trim_identity (a : String) (path : String)
    (query : List (String × String)) (hx : testLowerHex a = true) :
    jsTrim a = a ∧
    (path = "/callback" → urlSearchParamsGet query "apikey" = some a →
      handleUri path query = .stored a) := by
  have hall : a.data.all isLowerHexChar = true := by
    have h2 := hx
    simp only [testLowerHex, Bool.and_eq_true] at h2
    exact h2.2
  have htrim : jsTrim a = a := jsTrim_eq_self_of_lowerHex a hall
  refine ⟨htrim, fun hp hq => ?_⟩
  subst hp
  rw [handleUri_param_some query a hq, if_pos hx, htrim]

/-- C9 witness: the key "abc123" is stored verbatim. -/
theorem handleUri_trim_identity_witness :
    jsTrim "abc123" = "abc123" ∧
    handleUri "/callback" [("apikey", "abc123")] = .stored "abc123" := by
  have h := handleUri_trim_identity "abc123" "/callback"
    [("apikey", "abc123")] (by decide)
  exact ⟨h.1, h.2 rfl (by decide)⟩

/-- C3: whatever the starting snapshot, a transport failure during refresh
leaves the snapshot empty (the prior snapshot is discarded, never merged)
and produces exactly one error report, and the tree is notified. -/
theorem refresh_failure_clears (prior : List Collection)
    (apiKey : Option String) (msg : String) (hk : jsTruthy apiKey = true) :
    (refresh prior apiKey (.failure msg)).collections = [] ∧
    (refresh prior apiKey (.failure msg)).errors =
      ["Error fetching collections: " ++ msg] ∧
    (refresh prior apiKey (.failure msg)).errors.length = 1 ∧
    (∀ prior2 : List Collection,
      refresh prior apiKey (.failure msg) =
        refresh prior2 apiKey (.failure msg)) := by
  refine ⟨?_, ?_, ?_, ?_⟩ <;> simp [refresh, hk]

/-- C3 witness: a failure after a non-empty snapshot with a stored key. -/
theorem refresh_failure_clears_witness :
    (refresh [{ _id := "c1", collectionName := "Users", fields := [] }]
        (some "abc123") (.failure "timeout of 5000ms exceeded")).collections =
      [] ∧
    (refresh [{ _id := "c1", collectionName := "Users", fields := [] }]
        (some "abc123") (.failure "timeout of 5000ms exceeded")).errors.length =
      1 := by
  have h := refresh_failure_clears
    [{ _id := "c1", collectionName := "Users", fields := [] }]
    (some "abc123") "timeout of 5000ms exceeded" (by decide)
  exact ⟨h.1, h.2.2.1⟩

/-- C4: with no stored credential, refresh clears the snapshot, issues no
network request and reports no error. -/
theorem refresh_no_credential (prior : List Collection)
    (apiKey : Option String) (response : FetchResult)
    (hk : jsTruthy apiKey = false) :
    refresh prior apiKey response =
      { collections := [], requests := [], errors := [], fired := 1 } := by
  simp [refresh, hk]

/-- C4 witness: refresh with a null key and a non-empty prior snapshot. -/
theorem refresh_no_credential_witness :
    refresh [⟨"c1", "Users", []⟩] none
        (.success (some [⟨"c2", "Pets", []⟩])) =
      { collections := [], requests := [], errors := [], fired := 1 } :=
  refresh_no_credential _ none _ (by decide)

/-- C5: on success the snapshot is wholesale replaced by the response body,
or by the empty sequence when the body is falsy, and every execution path
of refresh fires exactly one change notification. -/
theorem refresh_success_replaces_and_fires (prior : List Collection)
    (apiKey : Option String) (response : FetchResult) :
    (refresh prior apiKey response).fired = 1 ∧
    (∀ body, jsTruthy apiKey = true →
      (refresh prior apiKey (.success body)).collections = body.getD []) ∧
    (jsTruthy apiKey = true →
      (refresh prior apiKey (.success none)).collections = []) := by
  refine ⟨?_, fun body hk => ?_, fun hk => ?_⟩
  · cases response <;> simp [refresh] <;> split <;> simp
  · simp [refresh, hk]
  · simp [refresh, hk]

/-- C5 witness: a successful fetch replaces a non-empty snapshot with the
body, and the notification fires once. -/
theorem refresh_success_replaces_and_fires_witness :
    (refresh [⟨"c1", "Users", []⟩] (some "abc123")
        (.success (some [⟨"c2", "Pets", []⟩]))).collections =
      [⟨"c2", "Pets", []⟩] ∧
    (refresh [] (some "abc123") (.failure "boom")).fired = 1 := by
  have h1 := refresh_success_replaces_and_fires [⟨"c1", "Users", []⟩]
    (some "abc123") (.success (some [⟨"c2", "Pets", []⟩]))
  have h2 := refresh_success_replaces_and_fires [] (some "abc123")
    (.failure "boom")
  exact ⟨h1.2.1 _ (by decide), h2.1⟩

/-- C6: at root, getChildren returns one collapsed entry per collection in
order, each with the show-endpoints command carrying that collection; under
a node, the collection is found by exact name with the first match winning,
its fields become non-collapsible "name (type)" entries in order, and a
missing name yields the empty list. -/
theorem getChildren_shape (collections : List Collection) :
    (getChildren collections none =
      collections.map fun c =>
        { label := c.collectionName
          collapsibleState := .collapsed
          command := some { command := "mockman.showEndpoints",
                            title := "Show Endpoints", arguments := [c] }
          iconPath := "file-submodule"
          collectionData := some c }) ∧
    ((getChildren collections none).length = collections.length) ∧
    (∀ el : MockmanTreeItem,
      (∀ c ∈ collections, c.collectionName ≠ el.label) →
      getChildren collections (some el) = []) ∧
    (∀ el : MockmanTreeItem, ∀ pre c post,
      collections = pre ++ c :: post →
      (∀ c2 ∈ pre, c2.collectionName ≠ el.label) →
      c.collectionName = el.label →
      getChildren collections (some el) =
        c.fields.map fun f =>
          { label := f.fieldName ++ " (" ++ f.fieldType ++ ")"
            collapsibleState := .notCollapsible
            command := none
            iconPath := "symbol-field"
            collectionData := none }) := by
  refine ⟨rfl, by simp [getChildren], fun el hne => ?_,
    fun el pre c post hc hpre hn => ?_⟩
  · have hfind : collections.find?
        (fun col => col.collectionName == el.label) = none := by
      rw [List.find?_eq_none]
      intro x hx
      simp [hne x hx]
    simp [getChildren, hfind]
  · subst hc
    have hfind : (pre ++ c :: post).find?
        (fun col => col.collectionName == el.label) = some c :=
      find?_first_match pre c post (fun x hx => by simp [hpre x hx])
        (by simp [hn])
    simp [getChildren, hfind]

/-- C6 witness: a collection matched at a non-head position is found by
exact name, the first of two duplicate names wins, and a missing name gives
the empty list. -/
theorem getChildren_shape_witness :
    getChildren [⟨"i0", "Pets", []⟩, ⟨"i1", "Users", [⟨"age", "number"⟩]⟩,
        ⟨"i2", "Users", [⟨"x", "string"⟩]⟩]
        (some ⟨"Users", .collapsed, none, "", none⟩) =
      [⟨"age (number)", .notCollapsible, none, "symbol-field", none⟩] ∧
    getChildren [⟨"i1", "Users", []⟩]
        (some ⟨"Pets", .collapsed, none, "", none⟩) = [] := by
  constructor
  · have h := (getChildren_shape [⟨"i0", "Pets", []⟩,
      ⟨"i1", "Users", [⟨"age", "number"⟩]⟩,
      ⟨"i2", "Users", [⟨"x", "string"⟩]⟩]).2.2.2
      ⟨"Users", .collapsed, none, "", none⟩
      [⟨"i0", "Pets", []⟩]
      ⟨"i1", "Users", [⟨"age", "number"⟩]⟩
      [⟨"i2", "Users", [⟨"x", "string"⟩]⟩]
      rfl (by intro c2 hc2; simp at hc2; rw [hc2]; decide) rfl
    simpa using h
  · have h := (getChildren_shape [⟨"i1", "Users", []⟩]).2.2.1
      ⟨"Pets", .collapsed, none, "", none⟩
      (by intro c hc; simp at hc; simp [hc])
    exact h

/-- C2: the endpoint catalog is a pure derivation from (baseHost, apiKey,
collection): the ordered list is always the three collection-level
descriptors followed by the six document-level ones, every full URL is the
base host prepended to the interpolated path, the paths are the string
interpolations of the key and the collection id/name with the literal
":documentId" placeholder in single-document URLs, and for key "abc123"
and collection with id "c1" and name "Users" the GET-by-id full URL is the
base host followed by "/collections/abc123/c1". -/
theorem endpointCatalog_pure_derivation (baseUrl apiKey : String)
    (c : Collection) :
    ((endpointCatalog baseUrl apiKey c).map
        (fun d => (d.method, d.description)) =
      [("GET", "Get all collections"), ("GET", "Get collection by name"),
       ("GET", "Get collection by ID"), ("POST", "Add documents"),
       ("GET", "Get all documents"), ("GET", "Get document by ID"),
       ("PUT", "Update document by ID"), ("DELETE", "Delete document by ID"),
       ("DELETE", "Delete all documents")]) ∧
    (∀ d ∈ endpointCatalog baseUrl apiKey c, d.fullUrl = baseUrl ++ d.path) ∧
    ((endpointCatalog baseUrl apiKey c).map (fun d => d.path) =
      ["/collections/" ++ apiKey,
       "/collections/" ++ apiKey ++ "/by-name/" ++ c.collectionName,
       "/collections/" ++ apiKey ++ "/" ++ c._id,
       "/collections/" ++ apiKey ++ "/" ++ c._id ++ "/documents",
       "/collections/" ++ apiKey ++ "/" ++ c._id ++ "/documents",
       "/collections/" ++ apiKey ++ "/" ++ c._id ++ "/documents/:documentId",
       "/collections/" ++ apiKey ++ "/" ++ c._id ++ "/documents/:documentId",
       "/collections/" ++ apiKey ++ "/" ++ c._id ++ "/documents/:documentId",
       "/collections/" ++ apiKey ++ "/" ++ c._id ++ "/documents"]) ∧
    (((endpointCatalog baseUrl "abc123" ⟨"c1", "Users", []⟩).map
        (fun d => d.fullUrl))[2]? =
      some (baseUrl ++ "/collections/abc123/c1")) := by
  refine ⟨rfl, ?_, ?_, ?_⟩
  · intro d hd
    simp only [endpointCatalog, collectionEndpoints, documentEndpoints,
      List.mem_append, List.mem_cons, List.not_mem_nil, or_false] at hd
    rcases hd with (rfl | rfl | rfl) | (rfl | rfl | rfl | rfl | rfl | rfl) <;>
      simp [String.append_assoc]
  · have hlit : "/documents" ++ "/:documentId" = "/documents/:documentId" :=
      rfl
    simp [endpointCatalog, collectionEndpoints, documentEndpoints,
      String.append_assoc, hlit]
  · simp [endpointCatalog, collectionEndpoints, documentEndpoints,
      String.append_assoc]

/-- C2 witness: the concrete scenario from the spec, evaluated at the
hard-coded base host. -/
theorem endpointCatalog_pure_derivation_witness :
    ((endpointCatalog mockmanBaseUrl "abc123" ⟨"c1", "Users", []⟩).map
        (fun d => d.fullUrl))[2]? =
      some "https://api.mockman.online/collections/abc123/c1" ∧
    (endpointCatalog mockmanBaseUrl "abc123" ⟨"c1", "Users", []⟩).length =
      9 := by
  have h := endpointCatalog_pure_derivation mockmanBaseUrl "abc123"
    ⟨"c1", "Users", []⟩
  have hurl := h.2.1
  refine ⟨?_, by decide⟩
  have hs := h.2.2.2
  simpa [mockmanBaseUrl] using hs

/-- C7: the create-button click handler rejects, with the range-validation
showError message and without posting createCollection (hence no POST),
every request whose count is below 1, above the variant maximum, or NaN,
and every request without a selected category; conversely a createCollection
message is only posted for a selected category and an in-range count; in
particular category "person" with count 0 is rejected under both variant
bounds. -/
theorem createClick_range_validation (maxCount : Int) (category : String)
    (count : Option Int) :
    (∀ n, count = some n → (n < 1 ∨ maxCount < n) →
      createClick maxCount category count =
        .showRangeError ("Please select a template and enter a valid row count (1-"
          ++ toString maxCount ++ ").")) ∧
    (count = none →
      createClick maxCount category count =
        .showRangeError ("Please select a template and enter a valid row count (1-"
          ++ toString maxCount ++ ").")) ∧
    (category = "" →
      createClick maxCount category count =
        .showRangeError ("Please select a template and enter a valid row count (1-"
          ++ toString maxCount ++ ").")) ∧
    (∀ cat n, createClick maxCount category count = .postCreate cat n →
      cat = category ∧ category ≠ "" ∧ count = some n ∧ 1 ≤ n ∧
        n ≤ maxCount) ∧
    createClick500 "person" (some 0) =
      .showRangeError "Please select a template and enter a valid row count (1-500)." ∧
    createClick1000 "person" (some 0) =
      .showRangeError "Please select a template and enter a valid row count (1-1000)." := by
  refine ⟨?_, ?_, ?_, ?_, by decide, by decide⟩
  · rintro n rfl hout
    have hr : (1 ≤ n && n ≤ maxCount) = false := by
      rcases hout with h1 | h2
      · simp [decide_eq_false (by omega : ¬ (1 ≤ n))]
      · simp [decide_eq_false (by omega : ¬ (n ≤ maxCount))]
    simp [createClick, hr]
  · rintro rfl
    simp [createClick]
  · rintro rfl
    simp [createClick, show "".isEmpty = true from rfl]
  · intro cat n h
    unfold createClick at h
    by_cases hcat : category.isEmpty
    · rw [hcat] at h
      exact absurd h (by simp)
    · simp only [hcat, Bool.not_false, Bool.true_and] at h
      cases count with
      | none => exact absurd h (by simp)
      | some m =>
          by_cases hr : (1 ≤ m && m ≤ maxCount) = true
          · rw [if_pos (by simpa using hr)] at h
            have hmr := (Bool.and_eq_true _ _).mp hr
            obtain ⟨rfl, rfl⟩ := (CreateClickOutcome.postCreate.injEq
              _ _ _ _).mp h.symm
            refine ⟨rfl, ?_, rfl, by simpa using hmr.1, by simpa using hmr.2⟩
            intro hemp
            rw [hemp] at hcat
            exact hcat (by decide)
          · rw [if_neg (by simpa using hr)] at h
            exact absurd h (by simp)

/-- C7 witness: the spec scenario at both bounds. -/
theorem createClick_range_validation_witness :
    createClick500 "person" (some 0) =
      .showRangeError "Please select a template and enter a valid row count (1-500)." ∧
    createClick 500 "person" (some 501) =
      .showRangeError "Please select a template and enter a valid row count (1-500)." := by
  refine ⟨(createClick_range_validation 500 "person" (some 0)).2.2.2.2.1, ?_⟩
  exact (createClick_range_validation 500 "person" (some 501)).1 501 rfl
    (by omega)

/-- C8: each of the three template-browser operations short-circuits with
the log-in-first notice and no network request when the credential is
falsy; otherwise it issues exactly one request (never retrying), and a
failure is reported once with the server-supplied message when a non-empty
one is present, else with the transport error text. -/
theorem handleTemplateMessage_error_handling (apiKey : Option String)
    (msg : TemplateMessage) (result : RequestResult) :
    (jsTruthy apiKey = false →
      handleTemplateMessage apiKey msg result =
        { requests := [],
          shownErrors := ["⚠️ Please login first (MockMan: Login)."] }) ∧
    ((handleTemplateMessage apiKey msg result).requests.length ≤ 1) ∧
    (∀ e, jsTruthy apiKey = true →
      handleTemplateMessage apiKey msg (.err e) =
        { requests := [templateRequestUrl (apiKey.getD "") msg],
          shownErrors := ["Error " ++ templateActionName msg ++ ": " ++
            extractErrorMessage e] }) ∧
    (∀ e : RequestError, ∀ m, e.responseMessage = some m → m ≠ "" →
      extractErrorMessage e = m) ∧
    (∀ e : RequestError, e.responseMessage = none →
      extractErrorMessage e = e.message) := by
  refine ⟨fun hk => ?_, ?_, fun e hk => ?_, ?_, ?_⟩
  · simp [handleTemplateMessage, hk]
  · unfold handleTemplateMessage
    split
    · simp
    · cases result <;> simp
  · simp [handleTemplateMessage, hk]
  · intro e m hm hne
    unfold extractErrorMessage
    rw [hm]
    simp only []
    rw [if_neg]
    intro hemp
    exact hne ((String.isEmpty_iff m).mp hemp)
  · intro e hm
    unfold extractErrorMessage
    rw [hm]

/-- C8 witness: a missing credential short-circuits, and a failed request
with a server message reports that message. -/
theorem handleTemplateMessage_error_handling_witness :
    handleTemplateMessage none .getTemplates .ok =
      { requests := [],
        shownErrors := ["⚠️ Please login first (MockMan: Login)."] } ∧
    handleTemplateMessage (some "abc123") (.getPreview "person")
        (.err { responseMessage := some "Invalid API key",
                message := "Request failed with status code 401" }) =
      { requests :=
          ["https://api.mockman.online/templates/abc123/person/preview"],
        shownErrors := ["Error fetching preview: Invalid API key"] } := by
  have h1 := (handleTemplateMessage_error_handling none .getTemplates .ok).1
    (by decide)
  have h2 := (handleTemplateMessage_error_handling (some "abc123")
    (.getPreview "person")
    (.err { responseMessage := some "Invalid API key",
            message := "Request failed with status code 401" })).2.2.1
    { responseMessage := some "Invalid API key",
      message := "Request failed with status code 401" } (by decide)
  refine ⟨h1, ?_⟩
  rw [h2]
  rfl

/-- C10: updateContent posts nothing when the stored credential is falsy or
the panel is closed, so any endpoints message actually posted embeds a
present, non-empty API key. -/
theorem updateContent_guards_key (apiKey : Option String) (panelOpen : Bool)
    (c : Collection) :
    (updateContent none panelOpen c = none) ∧
    (updateContent apiKey false c = none) ∧
    (∀ m, updateContent apiKey panelOpen c = some m →
      ∃ s, apiKey = some s ∧ s ≠ "" ∧ m.apiKey = s ∧ m.collection = c) := by
  refine ⟨by simp [updateContent, jsTruthy], by simp [updateContent], ?_⟩
  intro m h
  unfold updateContent at h
  by_cases hk : jsTruthy apiKey = true
  · cases apiKey with
    | none => exact absurd hk (by simp [jsTruthy])
    | some s =>
        refine ⟨s, rfl, ?_, ?_, ?_⟩
        · intro hemp
          rw [hemp] at hk
          exact absurd hk (by decide)
        · cases panelOpen with
          | false => rw [if_pos (by simp)] at h; exact absurd h (by simp)
          | true =>
              rw [if_neg (by simp [hk])] at h
              obtain ⟨rfl⟩ := (Option.some.injEq _ _).mp h.symm
              rfl
        · cases panelOpen with
          | false => rw [if_pos (by simp)] at h; exact absurd h (by simp)
          | true =>
              rw [if_neg (by simp [hk])] at h
              obtain ⟨rfl⟩ := (Option.some.injEq _ _).mp h.symm
              rfl
  · rw [if_pos (by simp [Bool.not_eq_true] at hk; simp [hk])] at h
    exact absurd h (by simp)

/-- C10 witness: no message is posted without a key, and a posted message
carries the key. -/
theorem updateContent_guards_key_witness :
    updateContent none true ⟨"c1", "Users", []⟩ = none ∧
    updateContent (some "abc123") true ⟨"c1", "Users", []⟩ =
      some { collection := ⟨"c1", "Users", []⟩, apiKey := "abc123" } := by
  have h := (updateContent_guards_key none true ⟨"c1", "Users", []⟩).1
  exact ⟨h, rfl⟩

end Mockman
